import Mathlib

/-!
Shallow embedding of the toy PEG parser (src/peg_parser.py, src/peg_token.py):
a backtracking recursive-descent parser over a token stream, built from PEG
combinators (sequence, ordered choice, zero-or-more, one-or-more) and a set of
mutually recursive grammar rules.

Modelling conventions:
- Python's mutable parser object `(tokens, pos, current_token)` becomes the
  `ParserState` record threaded explicitly through every operation.
- A raised `SyntaxError` becomes `Except.error` carrying the message string;
  every parsing step returns `Option (Except ParseErr α × ParserState)`, where
  `none` marks fuel exhaustion of the recursion-depth counter (the Python code
  has no such bound; concrete claims are evaluated at ample fuel, and fuel only
  ever produces `none`, never a spurious success or failure).
- Python dict/list AST values become the `PyObj` inductive.  Number nodes keep
  the literal text of the NUMBER token (the `float(...)` conversion is a
  diagnostic-level detail no claim depends on).
- Exception rollback in the source assigns only `self.pos` and
  `self.current_token`; `rollback` does exactly that.
-/

namespace ToyPEG

/-- Token categories, mirroring the `TokenType` enum of the source. -/
inductive TokenType where
  | VAR | IF | ELSE | WHILE | PRINT
  | IDENTIFIER | NUMBER
  | PLUS | MINUS | MUL | DIV | ASSIGN | EQ | NEQ | LT | GT | LTE | GTE | AND | OR
  | SEMICOLON | LPAREN | RPAREN | LBRACE | RBRACE
  | EOF
deriving DecidableEq, Repr

/-- Python's `TokenType.name` attribute: the enum member's identifier. -/
def TokenType.name : TokenType → String
  | .VAR => "VAR" | .IF => "IF" | .ELSE => "ELSE" | .WHILE => "WHILE" | .PRINT => "PRINT"
  | .IDENTIFIER => "IDENTIFIER" | .NUMBER => "NUMBER"
  | .PLUS => "PLUS" | .MINUS => "MINUS" | .MUL => "MUL" | .DIV => "DIV" | .ASSIGN => "ASSIGN"
  | .EQ => "EQ" | .NEQ => "NEQ" | .LT => "LT" | .GT => "GT" | .LTE => "LTE" | .GTE => "GTE"
  | .AND => "AND" | .OR => "OR"
  | .SEMICOLON => "SEMICOLON" | .LPAREN => "LPAREN" | .RPAREN => "RPAREN"
  | .LBRACE => "LBRACE" | .RBRACE => "RBRACE"
  | .EOF => "EOF"

/-- A lexer token: kind, optional text, optional source position (class `Token`). -/
structure Token where
  type : TokenType
  value : Option String := none
  lineno : Option Nat := none
  col : Option Nat := none
deriving DecidableEq, Repr

/-- The synthetic end-of-stream sentinel `Token(TokenType.EOF)`. -/
def eofToken : Token := { type := TokenType.EOF }

/-- The mutable state of a `ToyPEGParser` object: token list, position, current token. -/
structure ParserState where
  tokens : List Token
  pos : Nat
  current_token : Token
deriving DecidableEq, Repr

/-- `ToyPEGParser.__init__`: position 0; current token is `tokens[0]`,
or the EOF sentinel when the list is empty. -/
def mkParser (ts : List Token) : ParserState :=
  { tokens := ts, pos := 0,
    current_token := match ts with | [] => eofToken | t :: _ => t }

/-- `advance_to_next_token`: increment `pos`; current token becomes
`tokens[pos]` when in range, the EOF sentinel otherwise.  Returns the new
current token together with the new state. -/
def advance_to_next_token (s : ParserState) : Token × ParserState :=
  let p := s.pos + 1
  let cur := s.tokens.getD p eofToken
  (cur, { s with pos := p, current_token := cur })

/-- The matching test of `consume_token`: the current token has the requested
kind, and — when a value is given — also the requested value. -/
def tokenMatches (cur : Token) (tt : TokenType) (v : Option String) : Prop :=
  cur.type = tt ∧ (v = none ∨ cur.value = v)

instance (cur : Token) (tt : TokenType) (v : Option String) :
    Decidable (tokenMatches cur tt v) := by
  unfold tokenMatches; infer_instance

/-- `consume_token`: on a match, advance and return the consumed token;
otherwise leave the state unchanged and return `none` (no failure). -/
def consume_token (tt : TokenType) (v : Option String) (s : ParserState) :
    Option Token × ParserState :=
  if tokenMatches s.current_token tt v then
    let consumed := s.current_token
    ((some consumed), (advance_to_next_token s).2)
  else (none, s)

/-- A raised `SyntaxError`, reduced to its message string. -/
structure ParseErr where
  msg : String
deriving DecidableEq, Repr

/-- Python truthiness fallback `x or y` for an optional string: an absent or
empty string falls back to the alternative. -/
def orFallback (v : Option String) (fallback : String) : String :=
  match v with
  | some x => if x = "" then fallback else x
  | none => fallback

/-- How Python's f-string renders an optional integer (`None` when absent). -/
def optNatStr : Option Nat → String
  | some n => toString n
  | none => "None"

/-- `consume_token_or_fail`: like `consume_token`, but a mismatch raises a
`SyntaxError` embedding the expected and found token descriptions and the
source position.  Never diverges, so the result carries no fuel `Option`. -/
def consume_token_or_fail (tt : TokenType) (v : Option String) (err_msg : Option String)
    (s : ParserState) : Except ParseErr Token × ParserState :=
  match consume_token tt v s with
  | (some tok, s') => (Except.ok tok, s')
  | (none, s') =>
      let expected := orFallback v tt.name
      let found := orFallback s'.current_token.value s'.current_token.type.name
      (Except.error ⟨(orFallback err_msg "Syntax error") ++ ". Expected " ++ expected ++
          ", found " ++ found ++ " at line " ++ optNatStr s'.current_token.lineno ++ ":" ++
          optNatStr s'.current_token.col⟩, s')

/-- Python values the parser manipulates: AST nodes are string-keyed dicts,
combinator results are lists, leaf fields are strings, numeric literals, or
`None`.  `num` keeps the token's literal text. -/
inductive PyObj where
  | pynone
  | str (s : String)
  | num (numeral : String)
  | dict (fields : List (String × PyObj))
  | list (items : List PyObj)

/-- Python truthiness of a parser value: `None`, an empty string, an empty
dict and an empty list are falsy.  (A bare numeral never appears as a symbol
result in this parser, so its truthiness is immaterial; it is kept truthy.) -/
def PyObj.isFalsy : PyObj → Bool
  | .pynone => true
  | .str s => s == ""
  | .num _ => false
  | .dict fs => fs.isEmpty
  | .list l => l.isEmpty

/-- A token value as a dict field: Python `None` when the token had no text. -/
def PyObj.ofOptStr : Option String → PyObj
  | some s => .str s
  | none => .pynone

/-- The outcome of one parsing step: `none` = fuel exhausted; otherwise the
raised `SyntaxError` or the returned value, with the parser state either way. -/
def PRes (α : Type) : Type := Option (Except ParseErr α × ParserState)

/-- A parsing computation ("symbol" callable): state in, outcome out. -/
def PM (α : Type) : Type := ParserState → PRes α

/-- Exception rollback as written in the source: reassign `pos` and
`current_token` to a saved snapshot (the token list is never reassigned). -/
def rollback (s : ParserState) (p : Nat) (t : Token) : ParserState :=
  { s with pos := p, current_token := t }

/-- The loop body of `parse_sequence`: run the remaining symbols in order,
accumulating results; on a raise, restore the snapshot saved at sequence entry
and raise the wrapping failure. -/
def seqAux (start_pos : Nat) (start_tok : Token) :
    List (PM PyObj) → List PyObj → PM (List PyObj)
  | [], acc => fun s => some (Except.ok acc, s)
  | symbol :: rest, acc => fun s =>
      match symbol s with
      | none => none
      | some (Except.error _, s_err) =>
          some (Except.error ⟨"Syntax error. One symbol parsing failed within sequence."⟩,
                rollback s_err start_pos start_tok)
      | some (Except.ok r, s') => seqAux start_pos start_tok rest (acc ++ [r]) s'

/-- `parse_sequence`: raises on an empty symbol list; otherwise all-or-nothing
sequencing with rollback to the entry snapshot on any failure. -/
def parse_sequence (symbols : List (PM PyObj)) : PM (List PyObj) := fun s =>
  if symbols.isEmpty then some (Except.error ⟨"Syntax error. Empty sequence."⟩, s)
  else seqAux s.pos s.current_token symbols [] s

/-- The loop body of `parse_ordered_choice`: try each symbol in order; a raise
rolls the cursor back to the entry snapshot and moves on; the first success is
returned as a singleton; if all fail, return the empty list. -/
def choiceAux (start_pos : Nat) (start_tok : Token) :
    List (PM PyObj) → PM (List PyObj)
  | [] => fun s => some (Except.ok [], s)
  | symbol :: rest => fun s =>
      match symbol s with
      | none => none
      | some (Except.error _, s_err) =>
          choiceAux start_pos start_tok rest (rollback s_err start_pos start_tok)
      | some (Except.ok r, s') => some (Except.ok [r], s')

/-- `parse_ordered_choice`: raises on an empty symbol list; otherwise
first-match-wins over the alternatives, never raising. -/
def parse_ordered_choice (symbols : List (PM PyObj)) : PM (List PyObj) := fun s =>
  if symbols.isEmpty then some (Except.error ⟨"Syntax error. Empty ordered choice."⟩, s)
  else choiceAux s.pos s.current_token symbols s

/-- The loop of `parse_zero_or_more`: save the cursor, invoke the symbol; on a
raise restore the last snapshot and return what was accumulated; on a success
append the result, stopping immediately if the position did not advance. -/
def zomAux (symbol : PM PyObj) : Nat → List PyObj → PM (List PyObj)
  | 0, _ => fun _ => none
  | fuel + 1, results => fun s =>
      match symbol s with
      | none => none
      | some (Except.error _, s_err) =>
          some (Except.ok results, rollback s_err s.pos s.current_token)
      | some (Except.ok r, s') =>
          if s.pos = s'.pos then some (Except.ok (results ++ [r]), s')
          else zomAux symbol fuel (results ++ [r]) s'

/-- `parse_zero_or_more`: the loop above started with an empty accumulator. -/
def parse_zero_or_more (symbol : PM PyObj) (fuel : Nat) : PM (List PyObj) :=
  zomAux symbol fuel []

/-- `parse_one_or_more`: invoke the symbol once; a raise restores the entry
snapshot and raises the wrapping failure; a falsy first result yields the
empty list.  Otherwise only a DICT first result is wrapped into a singleton
list (`isinstance(first_result, dict)`); any other first result — in
particular a list — is kept as is, so the results of `parse_zero_or_more`
are appended to it by Python list concatenation (a list first result is
spliced).  When `rest_results` is empty the possibly-wrapped `first_result`
escapes unchanged, which in the source is dynamically typed — hence the
return type `PyObj` rather than `List PyObj`.  (The source's
`isinstance(rest_results, dict)` re-wrap is dead: `parse_zero_or_more`
always returns a list.)  Concatenating a non-list, non-dict first result
with nonempty rest results is Python's unhandled `TypeError`, a crash
outside the `SyntaxError` regime, modelled as the absent outcome `none`. -/
def parse_one_or_more (symbol : PM PyObj) (fuel : Nat) : PM PyObj := fun s =>
  match symbol s with
  | none => none
  | some (Except.error _, s_err) =>
      some (Except.error ⟨"Syntax error. 1st symbol parsing failed in 'one_or_more'."⟩,
            rollback s_err s.pos s.current_token)
  | some (Except.ok first, s1) =>
      if first.isFalsy then some (Except.ok (PyObj.list []), s1)
      else
        let first_list : PyObj :=
          match first with
          | PyObj.dict fs => PyObj.list [PyObj.dict fs]
          | other => other
        match parse_zero_or_more symbol fuel s1 with
        | none => none
        | some (Except.error e, s2) => some (Except.error e, s2)
        | some (Except.ok rest, s2) =>
            if rest.isEmpty then some (Except.ok first_list, s2)
            else
              match first_list with
              | PyObj.list l => some (Except.ok (PyObj.list (l ++ rest)), s2)
              | _ => none

/-- Python's f-string rendering of an optional string (`None` when absent). -/
def optStrStr : Option String → String
  | some s => s
  | none => "None"

/-- Propagate a raise from `consume_token_or_fail`, or continue with the token. -/
def tokStep (r : Except ParseErr Token × ParserState) (k : Token → PM α) : PRes α :=
  match r with
  | (Except.error e, s') => some (Except.error e, s')
  | (Except.ok tok, s') => k tok s'

/-- Propagate fuel exhaustion or a raise, or continue with the value. -/
def resStep (r : PRes α) (k : α → PM β) : PRes β :=
  match r with
  | none => none
  | some (Except.error e, s') => some (Except.error e, s')
  | some (Except.ok a, s') => k a s'

/-- The hand-written `try/except SyntaxError` pattern of the grammar rules:
run the body; on a raise, roll the cursor back to the given snapshot and
re-raise with the rule-specific context message. -/
def attempt (body : PM α) (start_pos : Nat) (start_tok : Token) (msg : String) : PM α :=
  fun s =>
    match body s with
    | none => none
    | some (Except.error _, s_err) => some (Except.error ⟨msg⟩, rollback s_err start_pos start_tok)
    | some (Except.ok a, s') => some (Except.ok a, s')

/-- A `binary_expr` AST node. -/
def mkBinary (op : String) (left right : PyObj) : PyObj :=
  PyObj.dict [("type", PyObj.str "binary_expr"), ("op", PyObj.str op),
              ("left", left), ("right", right)]

/-- One grammar-rule function per method of `ToyPEGParser`; the `_loop` fields
are the `while` loops of the binary-operator precedence levels, carrying the
enclosing rule's entry snapshot and the left tree folded so far. -/
structure RuleFns where
  program : PM PyObj
  statement : PM PyObj
  block : PM PyObj
  var_decl : PM PyObj
  assignment : PM PyObj
  if_stmt : PM PyObj
  while_loop : PM PyObj
  print_stmt : PM PyObj
  expression : PM PyObj
  logical_or : PM PyObj
  logical_and : PM PyObj
  equality : PM PyObj
  relational : PM PyObj
  additive : PM PyObj
  multiplicative : PM PyObj
  primary : PM PyObj
  logical_or_loop : Nat → Token → PyObj → PM PyObj
  logical_and_loop : Nat → Token → PyObj → PM PyObj
  equality_loop : Nat → Token → PyObj → PM PyObj
  relational_loop : Nat → Token → PyObj → PM PyObj
  additive_loop : Nat → Token → PyObj → PM PyObj
  multiplicative_loop : Nat → Token → PyObj → PM PyObj

/-- The fuel-exhausted rule set: every invocation diverges. -/
def stuckRules : RuleFns where
  program := fun _ => none
  statement := fun _ => none
  block := fun _ => none
  var_decl := fun _ => none
  assignment := fun _ => none
  if_stmt := fun _ => none
  while_loop := fun _ => none
  print_stmt := fun _ => none
  expression := fun _ => none
  logical_or := fun _ => none
  logical_and := fun _ => none
  equality := fun _ => none
  relational := fun _ => none
  additive := fun _ => none
  multiplicative := fun _ => none
  primary := fun _ => none
  logical_or_loop := fun _ _ _ _ => none
  logical_and_loop := fun _ _ _ _ => none
  equality_loop := fun _ _ _ _ => none
  relational_loop := fun _ _ _ _ => none
  additive_loop := fun _ _ _ _ => none
  multiplicative_loop := fun _ _ _ _ => none

/-- One unfolding of every grammar rule, with `self` supplying the rule set
used for all inner calls (one fuel unit per call or loop iteration).
Each field is a direct transcription of the corresponding method. -/
def grammarStep (loopFuel : Nat) (self : RuleFns) : RuleFns where
  program := fun s =>
    resStep (parse_one_or_more self.statement loopFuel s) fun stmt_results s1 =>
    if stmt_results.isFalsy then some (Except.error ⟨"Empty program"⟩, s1)
    else some (Except.ok (PyObj.dict [("type", PyObj.str "program"),
                                      ("body", stmt_results)]), s1)
  statement := fun s =>
    resStep (parse_ordered_choice
        [self.var_decl, self.assignment, self.if_stmt,
         self.while_loop, self.print_stmt, self.block] s) fun choice_results s1 =>
    match choice_results with
    | [] => some (Except.error ⟨"Expected statement"⟩, s1)
    | r :: _ => some (Except.ok r, s1)
  block := fun s =>
    tokStep (consume_token_or_fail .LBRACE (some "\x7b")
        (some "Expected '\x7b' to start block") s) fun _ s1 =>
    resStep (parse_zero_or_more self.statement loopFuel s1) fun stmt_results s2 =>
    tokStep (consume_token_or_fail .RBRACE (some "\x7d")
        (some "Expected '\x7d' to end block") s2) fun _ s3 =>
    some (Except.ok (PyObj.dict [("type", PyObj.str "block"),
                                 ("body", PyObj.list stmt_results)]), s3)
  var_decl := fun s =>
    let start_pos := s.pos
    let start_token := s.current_token
    tokStep (consume_token_or_fail .VAR (some "var") none s) fun _ s1 =>
    tokStep (consume_token_or_fail .IDENTIFIER none
        (some "Expected variable name in declaration") s1) fun id_token s2 =>
    let init_step : PRes PyObj :=
      match consume_token .ASSIGN (some "=") s2 with
      | (some _, s3) =>
          attempt self.expression start_pos start_token
            "Expected expression after '=' in declaration" s3
      | (none, s3) => some (Except.ok (PyObj.dict []), s3)
    resStep init_step fun expr_result s4 =>
    tokStep (consume_token_or_fail .SEMICOLON (some ";")
        (some "Expected ';' after declaration") s4) fun _ s5 =>
    some (Except.ok (PyObj.dict [("type", PyObj.str "var_decl"),
        ("name", PyObj.ofOptStr id_token.value), ("init", expr_result)]), s5)
  assignment := fun s =>
    let start_pos := s.pos
    let start_token := s.current_token
    tokStep (consume_token_or_fail .IDENTIFIER none
        (some "Expected variable name in assignment") s) fun id_token s1 =>
    tokStep (consume_token_or_fail .ASSIGN (some "=")
        (some "Expected '=' in assignment") s1) fun _ s2 =>
    resStep (attempt self.expression start_pos start_token
        "Expected expression in assignment" s2) fun expr_result s3 =>
    tokStep (consume_token_or_fail .SEMICOLON (some ";")
        (some "Expected ';' after assignment") s3) fun _ s4 =>
    some (Except.ok (PyObj.dict [("type", PyObj.str "assignment"),
        ("name", PyObj.ofOptStr id_token.value), ("value", expr_result)]), s4)
  if_stmt := fun s =>
    let start_pos := s.pos
    let start_token := s.current_token
    tokStep (consume_token_or_fail .IF (some "if") none s) fun _ s1 =>
    tokStep (consume_token_or_fail .LPAREN (some "(")
        (some "Expected '(' after 'if'") s1) fun _ s2 =>
    resStep (attempt self.expression start_pos start_token
        "Expected condition in 'if' statement" s2) fun condition_result s3 =>
    tokStep (consume_token_or_fail .RPAREN (some ")")
        (some "Expected ')' after condition") s3) fun _ s4 =>
    resStep (attempt self.statement start_pos start_token
        "Expected statement after 'if'" s4) fun if_body_result s5 =>
    let else_step : PRes PyObj :=
      match consume_token .ELSE (some "else") s5 with
      | (some _, s6) =>
          attempt self.statement start_pos start_token "Expected statement after 'else'" s6
      | (none, s6) => some (Except.ok (PyObj.dict []), s6)
    resStep else_step fun else_body_result s7 =>
    some (Except.ok (PyObj.dict [("type", PyObj.str "if_stmt"),
        ("cond", condition_result), ("if-body", if_body_result),
        ("else-body", else_body_result)]), s7)
  while_loop := fun s =>
    let start_pos := s.pos
    let start_token := s.current_token
    tokStep (consume_token_or_fail .WHILE (some "while") none s) fun _ s1 =>
    tokStep (consume_token_or_fail .LPAREN (some "(")
        (some "Expected '(' after 'while'") s1) fun _ s2 =>
    resStep (attempt self.expression start_pos start_token
        "Expected condition in 'while' loop" s2) fun condition_result s3 =>
    tokStep (consume_token_or_fail .RPAREN (some ")")
        (some "Expected ')' after condition") s3) fun _ s4 =>
    resStep (attempt self.statement start_pos start_token
        "Expected loop body" s4) fun body_result s5 =>
    some (Except.ok (PyObj.dict [("type", PyObj.str "while_loop"),
        ("cond", condition_result), ("body", body_result)]), s5)
  print_stmt := fun s =>
    let start_pos := s.pos
    let start_token := s.current_token
    tokStep (consume_token_or_fail .PRINT (some "print") none s) fun _ s1 =>
    resStep (attempt self.expression start_pos start_token
        "Expected expression after 'print'" s1) fun expr_result s2 =>
    tokStep (consume_token_or_fail .SEMICOLON (some ";")
        (some "Expected ';' after print") s2) fun _ s3 =>
    some (Except.ok (PyObj.dict [("type", PyObj.str "print_stmt"),
        ("expression", expr_result)]), s3)
  expression := fun s =>
    match self.logical_or s with
    | none => none
    | some (Except.error _, s') => some (Except.error ⟨"Failed to parse expression"⟩, s')
    | some (Except.ok r, s') => some (Except.ok r, s')
  logical_or := fun s =>
    let start_pos := s.pos
    let start_token := s.current_token
    resStep (attempt self.logical_and start_pos start_token
        "Expected expression before '||'" s) fun left s1 =>
    self.logical_or_loop start_pos start_token left s1
  logical_and := fun s =>
    let start_pos := s.pos
    let start_token := s.current_token
    resStep (attempt self.equality start_pos start_token
        "Expected expression before '&&'" s) fun left s1 =>
    self.logical_and_loop start_pos start_token left s1
  equality := fun s =>
    let start_pos := s.pos
    let start_token := s.current_token
    resStep (attempt self.relational start_pos start_token
        "Expected expression before '==' or '!='" s) fun left s1 =>
    self.equality_loop start_pos start_token left s1
  relational := fun s =>
    let start_pos := s.pos
    let start_token := s.current_token
    resStep (attempt self.additive start_pos start_token
        "Expected expression before '<', '>', '<=', or '>='" s) fun left s1 =>
    self.relational_loop start_pos start_token left s1
  additive := fun s =>
    let start_pos := s.pos
    let start_token := s.current_token
    resStep (attempt self.multiplicative start_pos start_token
        "Expected expression before '<', '>', '<=', or '>='" s) fun left s1 =>
    self.additive_loop start_pos start_token left s1
  multiplicative := fun s =>
    let start_pos := s.pos
    let start_token := s.current_token
    resStep (attempt self.primary start_pos start_token
        "Expected expression before '*' or '/'" s) fun left s1 =>
    self.multiplicative_loop start_pos start_token left s1
  primary := fun s =>
    match consume_token .NUMBER none s with
    | (some num, s1) =>
        some (Except.ok (PyObj.dict [("type", PyObj.str "number"),
            ("value", PyObj.num (optStrStr num.value))]), s1)
    | (none, s1) =>
    match consume_token .IDENTIFIER none s1 with
    | (some ident, s2) =>
        some (Except.ok (PyObj.dict [("type", PyObj.str "identifier"),
            ("name", PyObj.ofOptStr ident.value)]), s2)
    | (none, s2) =>
    let start_pos := s2.pos
    let start_token := s2.current_token
    match consume_token .LPAREN (some "(") s2 with
    | (some _, s3) =>
        resStep (attempt self.expression start_pos start_token
            "Expected expression after '('" s3) fun expr_result s4 =>
        tokStep (consume_token_or_fail .RPAREN (some ")")
            (some "Expected ')' after expression") s4) fun _ s5 =>
        some (Except.ok expr_result, s5)
    | (none, s3) =>
    let op_step : Option Token × ParserState :=
      match consume_token .PLUS (some "+") s3 with
      | (some t, s4) => (some t, s4)
      | (none, s4) => consume_token .MINUS (some "-") s4
    match op_step with
    | (some op_token, s4) =>
        resStep (attempt self.primary start_pos start_token
            ("Expected expression after '" ++ optStrStr op_token.value ++ "'") s4)
          fun operand s5 =>
        some (Except.ok (PyObj.dict [("type", PyObj.str "unary_expr"),
            ("op", PyObj.ofOptStr op_token.value), ("argument", operand)]), s5)
    | (none, s4) => some (Except.error ⟨"Expected primary expression"⟩, s4)
  logical_or_loop := fun start_pos start_token left s =>
    match consume_token .OR (some "||") s with
    | (some _, s1) =>
        resStep (attempt self.logical_and start_pos start_token
            "Expected expression after '||'" s1) fun right s2 =>
        self.logical_or_loop start_pos start_token (mkBinary "||" left right) s2
    | (none, s1) => some (Except.ok left, s1)
  logical_and_loop := fun start_pos start_token left s =>
    match consume_token .AND (some "&&") s with
    | (some _, s1) =>
        resStep (attempt self.equality start_pos start_token
            "Expected expression after '&&'" s1) fun right s2 =>
        self.logical_and_loop start_pos start_token (mkBinary "&&" left right) s2
    | (none, s1) => some (Except.ok left, s1)
  equality_loop := fun start_pos start_token left s =>
    match consume_token .EQ (some "==") s with
    | (some _, s1) =>
        resStep (attempt self.relational start_pos start_token
            "Expected expression after '=='" s1) fun right s2 =>
        self.equality_loop start_pos start_token (mkBinary "==" left right) s2
    | (none, s1) =>
    match consume_token .NEQ (some "!=") s1 with
    | (some _, s2) =>
        resStep (attempt self.relational start_pos start_token
            "Expected expression after '!='" s2) fun right s3 =>
        self.equality_loop start_pos start_token (mkBinary "!=" left right) s3
    | (none, s2) => some (Except.ok left, s2)
  relational_loop := fun start_pos start_token left s =>
    match consume_token .LT (some "<") s with
    | (some _, s1) =>
        resStep (attempt self.additive start_pos start_token
            "Expected expression after '<'" s1) fun right s2 =>
        self.relational_loop start_pos start_token (mkBinary "<" left right) s2
    | (none, s1) =>
    match consume_token .GT (some ">") s1 with
    | (some _, s2) =>
        resStep (attempt self.additive start_pos start_token
            "Expected expression after '>'" s2) fun right s3 =>
        self.relational_loop start_pos start_token (mkBinary ">" left right) s3
    | (none, s2) =>
    match consume_token .LTE (some "<=") s2 with
    | (some _, s3) =>
        resStep (attempt self.additive start_pos start_token
            "Expected expression after '<='" s3) fun right s4 =>
        self.relational_loop start_pos start_token (mkBinary "<=" left right) s4
    | (none, s3) =>
    match consume_token .GTE (some ">=") s3 with
    | (some _, s4) =>
        resStep (attempt self.additive start_pos start_token
            "Expected expression after '>='" s4) fun right s5 =>
        self.relational_loop start_pos start_token (mkBinary ">=" left right) s5
    | (none, s4) => some (Except.ok left, s4)
  additive_loop := fun start_pos start_token left s =>
    match consume_token .PLUS (some "+") s with
    | (some _, s1) =>
        resStep (attempt self.multiplicative start_pos start_token
            "Expected expression after '+'" s1) fun right s2 =>
        self.additive_loop start_pos start_token (mkBinary "+" left right) s2
    | (none, s1) =>
    match consume_token .MINUS (some "-") s1 with
    | (some _, s2) =>
        resStep (attempt self.multiplicative start_pos start_token
            "Expected expression after '-'" s2) fun right s3 =>
        self.additive_loop start_pos start_token (mkBinary "-" left right) s3
    | (none, s2) => some (Except.ok left, s2)
  multiplicative_loop := fun start_pos start_token left s =>
    match consume_token .MUL (some "*") s with
    | (some _, s1) =>
        resStep (attempt self.primary start_pos start_token
            "Expected expression after '*'" s1) fun right s2 =>
        self.multiplicative_loop start_pos start_token (mkBinary "*" left right) s2
    | (none, s1) =>
    match consume_token .DIV (some "/") s1 with
    | (some _, s2) =>
        resStep (attempt self.primary start_pos start_token
            "Expected expression after '/'" s2) fun right s3 =>
        self.multiplicative_loop start_pos start_token (mkBinary "/" left right) s3
    | (none, s2) => some (Except.ok left, s2)

/-- The grammar-rule set at a given recursion-depth bound: each fuel unit
permits one more rule call or loop iteration. -/
def rules : Nat → RuleFns
  | 0 => stuckRules
  | f + 1 => grammarStep (f + 1) (rules f)

/-- `ToyPEGParser.program` at a given fuel. -/
def program (f : Nat) : PM PyObj := (rules f).program

/-- `ToyPEGParser.statement` at a given fuel. -/
def statement (f : Nat) : PM PyObj := (rules f).statement

/-- `ToyPEGParser.block` at a given fuel. -/
def block (f : Nat) : PM PyObj := (rules f).block

/-- `ToyPEGParser.var_decl` at a given fuel. -/
def var_decl (f : Nat) : PM PyObj := (rules f).var_decl

/-- `ToyPEGParser.assignment` at a given fuel. -/
def assignment (f : Nat) : PM PyObj := (rules f).assignment

/-- `ToyPEGParser.if_stmt` at a given fuel. -/
def if_stmt (f : Nat) : PM PyObj := (rules f).if_stmt

/-- `ToyPEGParser.while_loop` at a given fuel. -/
def while_loop (f : Nat) : PM PyObj := (rules f).while_loop

/-- `ToyPEGParser.print_stmt` at a given fuel. -/
def print_stmt (f : Nat) : PM PyObj := (rules f).print_stmt

/-- `ToyPEGParser.expression` at a given fuel. -/
def expression (f : Nat) : PM PyObj := (rules f).expression

/-- `ToyPEGParser.logical_or` at a given fuel. -/
def logical_or (f : Nat) : PM PyObj := (rules f).logical_or

/-- `ToyPEGParser.logical_and` at a given fuel. -/
def logical_and (f : Nat) : PM PyObj := (rules f).logical_and

/-- `ToyPEGParser.equality` at a given fuel. -/
def equality (f : Nat) : PM PyObj := (rules f).equality

/-- `ToyPEGParser.relational` at a given fuel. -/
def relational (f : Nat) : PM PyObj := (rules f).relational

/-- `ToyPEGParser.additive` at a given fuel. -/
def additive (f : Nat) : PM PyObj := (rules f).additive

/-- `ToyPEGParser.multiplicative` at a given fuel. -/
def multiplicative (f : Nat) : PM PyObj := (rules f).multiplicative

/-- `ToyPEGParser.primary` at a given fuel. -/
def primary (f : Nat) : PM PyObj := (rules f).primary

/-- The `while` loop of `additive` at a given fuel. -/
def additive_loop (f : Nat) : Nat → Token → PyObj → PM PyObj := (rules f).additive_loop

/-- A token with a textual value (no source position, as in the repo's tests). -/
def tkv (tt : TokenType) (v : String) : Token := { type := tt, value := some v }

/-- A token with no textual value. -/
def tk (tt : TokenType) : Token := { type := tt }

/-- The message of a raised failure, if the outcome is a raise. -/
def resErrMsg : PRes α → Option String
  | some (Except.error e, _) => some e.msg
  | _ => none

/-- The cursor position at the moment a failure escapes, if the outcome is a raise. -/
def resErrPos : PRes α → Option Nat
  | some (Except.error _, s) => some s.pos
  | _ => none

/-- The current token's kind at the moment a failure escapes. -/
def resErrCurType : PRes α → Option TokenType
  | some (Except.error _, s) => some s.current_token.type
  | _ => none

/-- The returned value, if the outcome is a success. -/
def resOkVal : PRes α → Option α
  | some (Except.ok v, _) => some v
  | _ => none

/-- The final cursor position, if the outcome is a success. -/
def resOkPos : PRes α → Option Nat
  | some (Except.ok _, s) => some s.pos
  | _ => none

/-- The final current token's kind, if the outcome is a success. -/
def resOkCurType : PRes α → Option TokenType
  | some (Except.ok _, s) => some s.current_token.type
  | _ => none

/-- An `identifier` AST node. -/
def identNode (nm : String) : PyObj :=
  PyObj.dict [("type", PyObj.str "identifier"), ("name", PyObj.str nm)]

/-- A `print_stmt` AST node. -/
def printNode (e : PyObj) : PyObj :=
  PyObj.dict [("type", PyObj.str "print_stmt"), ("expression", e)]

/-- A symbol callable that always raises with the given message. -/
def symFailK (m : String) : PM PyObj := fun s => some (Except.error ⟨m⟩, s)

/-- A symbol callable that always returns the given value without consuming. -/
def symOkConst (v : PyObj) : PM PyObj := fun s => some (Except.ok v, s)

/-- The data-model invariant of the cursor: the current token is
`tokens[pos]` when `pos` is in range and the EOF sentinel otherwise. -/
def cursorInv (s : ParserState) : Prop :=
  s.current_token = s.tokens.getD s.pos eofToken

/-- A success outcome is never equal to a raise outcome. -/
theorem ok_ne_error {α : Type} (a : α) (u : ParserState) (e : ParseErr) (w : ParserState) :
    some (Except.ok a, u) ≠ (some (Except.error e, w) : Option (Except ParseErr α × ParserState)) := by
  intro hc
  injection hc with h1
  injection h1 with h2 h3
  exact Except.noConfusion h2

/-- A successful `consume_token` implies the current token had the requested kind. -/
theorem consume_token_type_eq {tt : TokenType} {v : Option String} {s : ParserState}
    {t : Token} {s1 : ParserState}
    (h : consume_token tt v s = (some t, s1)) : s.current_token.type = tt := by
  unfold consume_token at h
  split at h
  · next hm => exact hm.1
  · simp at h

/-- `choiceAux` never produces a raise, whatever the remaining symbols do. -/
theorem choiceAux_no_raise (sp : Nat) (stk : Token) (syms : List (PM PyObj)) :
    ∀ (t : ParserState) (e : ParseErr) (s' : ParserState),
    choiceAux sp stk syms t ≠ some (Except.error e, s') := by
  induction syms with
  | nil => intro t e s'; exact ok_ne_error [] t e s'
  | cons sym rest ih =>
      intro t e s'
      simp only [choiceAux]
      cases h : sym t with
      | none => simp
      | some p =>
          obtain ⟨r, s2⟩ := p
          cases r with
          | error e2 => exact ih _ e s'
          | ok v => exact ok_ne_error [v] s2 e s'

/-- If every remaining symbol fails on every state, `choiceAux` returns the
empty list with the cursor still at the entry snapshot. -/
theorem choiceAux_all_fail (sp : Nat) (stk : Token) (syms : List (PM PyObj)) :
    ∀ t : ParserState,
    (∀ sym ∈ syms, ∀ u : ParserState, ∃ e u', sym u = some (Except.error e, u')) →
    t.pos = sp → t.current_token = stk →
    ∃ s_fin, choiceAux sp stk syms t = some (Except.ok [], s_fin) ∧
      s_fin.pos = sp ∧ s_fin.current_token = stk := by
  induction syms with
  | nil => intro t _ h1 h2; exact ⟨t, by simp [choiceAux], h1, h2⟩
  | cons sym rest ih =>
      intro t hall h1 h2
      obtain ⟨e, u', hu⟩ := hall sym (by simp) t
      simp only [choiceAux, hu]
      exact ih (rollback u' sp stk) (fun sy hsy => hall sy (List.mem_cons_of_mem _ hsy)) rfl rfl

/-- `seqAux` either diverges, raises the wrapping failure with the cursor
restored to the sequence-entry snapshot, or returns one result per symbol. -/
theorem seqAux_cases (sp : Nat) (stk : Token) (syms : List (PM PyObj)) :
    ∀ (acc : List PyObj) (t : ParserState),
      seqAux sp stk syms acc t = none ∨
      (∃ s', seqAux sp stk syms acc t =
          some (Except.error ⟨"Syntax error. One symbol parsing failed within sequence."⟩, s') ∧
          s'.pos = sp ∧ s'.current_token = stk) ∨
      (∃ res s', seqAux sp stk syms acc t = some (Except.ok res, s') ∧
          res.length = acc.length + syms.length) := by
  induction syms with
  | nil =>
      intro acc t
      exact Or.inr (Or.inr ⟨acc, t, by simp [seqAux], by simp⟩)
  | cons sym rest ih =>
      intro acc t
      cases h : sym t with
      | none => exact Or.inl (by simp only [seqAux, h])
      | some p =>
          obtain ⟨r, s2⟩ := p
          cases r with
          | error e2 =>
              refine Or.inr (Or.inl ⟨rollback s2 sp stk, ?_, rfl, rfl⟩)
              simp only [seqAux, h]
          | ok v =>
              rcases ih (acc ++ [v]) s2 with hnone | herr | hok
              · exact Or.inl (by simp only [seqAux, h]; exact hnone)
              · obtain ⟨s', hs', hp, hc⟩ := herr
                exact Or.inr (Or.inl ⟨s', by simp only [seqAux, h]; exact hs', hp, hc⟩)
              · obtain ⟨res, s', hs', hlen⟩ := hok
                refine Or.inr (Or.inr ⟨res, s', by simp only [seqAux, h]; exact hs', ?_⟩)
                simp only [List.length_append, List.length_cons, List.length_nil] at hlen ⊢
                omega

/-- `zomAux` never produces a raise, for any fuel, accumulator and state. -/
theorem zomAux_no_raise (symbol : PM PyObj) :
    ∀ (fuel : Nat) (acc : List PyObj) (t : ParserState) (e : ParseErr) (s' : ParserState),
      zomAux symbol fuel acc t ≠ some (Except.error e, s') := by
  intro fuel
  induction fuel with
  | zero => intro acc t e s'; simp [zomAux]
  | succ f ih =>
      intro acc t e s'
      simp only [zomAux]
      cases h : symbol t with
      | none => simp
      | some p =>
          obtain ⟨r, s2⟩ := p
          cases r with
          | error e2 => exact ok_ne_error _ _ e s'
          | ok v =>
              by_cases hp : t.pos = s2.pos
              · simp only [if_pos hp]; exact ok_ne_error _ _ e s'
              · simp only [if_neg hp]; exact ih _ _ e s'

/-- Unfolding of `parse_ordered_choice` on a nonempty symbol list. -/
theorem parse_ordered_choice_cons (sym : PM PyObj) (rest : List (PM PyObj)) (s : ParserState) :
    parse_ordered_choice (sym :: rest) s = choiceAux s.pos s.current_token (sym :: rest) s := rfl

/-- Unfolding of `parse_sequence` on a nonempty symbol list. -/
theorem parse_sequence_cons (sym : PM PyObj) (rest : List (PM PyObj)) (s : ParserState) :
    parse_sequence (sym :: rest) s = seqAux s.pos s.current_token (sym :: rest) [] s := rfl

/-- `advance_to_next_token` establishes the cursor invariant unconditionally. -/
theorem advance_preserves_inv (s : ParserState) : cursorInv (advance_to_next_token s).2 := rfl

/-- C9: the cursor invariant — the current token is `tokens[pos]` when the
position is in range and the synthetic EOF sentinel otherwise — holds after
construction (in particular, constructing from the empty token list sets the
current token to the EOF sentinel before any rule runs), after every advance,
after every consume, and after every rollback restore to a snapshot saved from
a state with the same token list. -/
theorem cursor_invariant :
    (∀ ts, cursorInv (mkParser ts)) ∧
    ((mkParser []).current_token = eofToken) ∧
    (∀ s, cursorInv (advance_to_next_token s).2) ∧
    (∀ s tt v, cursorInv s → cursorInv (consume_token tt v s).2) ∧
    (∀ s s0, cursorInv s0 → s.tokens = s0.tokens →
        cursorInv (rollback s s0.pos s0.current_token)) := by
  refine ⟨?_, rfl, advance_preserves_inv, ?_, ?_⟩
  · intro ts
    cases ts with
    | nil => rfl
    | cons t l => rfl
  · intro s tt v hinv
    unfold consume_token
    split
    · exact advance_preserves_inv s
    · exact hinv
  · intro s s0 hinv ht
    unfold cursorInv at hinv ⊢
    simpa [rollback, ht] using hinv

/-- Witness for C9: the rollback clause applied to the one-token parser state. -/
theorem cursor_invariant_witness :
    cursorInv (rollback (mkParser [tk .EOF]) (mkParser [tk .EOF]).pos
      (mkParser [tk .EOF]).current_token) :=
  cursor_invariant.2.2.2.2 (mkParser [tk .EOF]) (mkParser [tk .EOF]) rfl rfl

/-- C3 (amended): for every NONEMPTY list of symbol functions and every cursor
state, `ordered_choice` never raises: it tries the symbols in listed order,
restoring the cursor (position and current token) to the entry snapshot after
each failing symbol before trying the next, returns the first succeeding
symbol's result as a singleton list without trying later symbols, and returns
an empty list (with the cursor back at the entry snapshot) if every symbol
fails.  On the empty symbol list it raises "Syntax error. Empty ordered
choice." instead. -/
theorem ordered_choice_spec
    (symbols : List (PM PyObj)) (h : symbols ≠ []) (s : ParserState) :
    (∀ e s', parse_ordered_choice symbols s ≠ some (Except.error e, s')) ∧
    (∀ sym rest r s1, symbols = sym :: rest →
        sym s = some (Except.ok r, s1) →
        parse_ordered_choice symbols s = some (Except.ok [r], s1)) ∧
    (∀ sym rest e s_err, symbols = sym :: rest →
        sym s = some (Except.error e, s_err) →
        parse_ordered_choice symbols s =
          choiceAux s.pos s.current_token rest (rollback s_err s.pos s.current_token)) ∧
    ((∀ sym ∈ symbols, ∀ u : ParserState, ∃ e u', sym u = some (Except.error e, u')) →
        ∃ s_fin, parse_ordered_choice symbols s = some (Except.ok [], s_fin) ∧
          s_fin.pos = s.pos ∧ s_fin.current_token = s.current_token) := by
  obtain ⟨sym0, rest0, rfl⟩ : ∃ a l, symbols = a :: l := by
    cases symbols with
    | nil => exact absurd rfl h
    | cons a l => exact ⟨a, l, rfl⟩
  refine ⟨?_, ?_, ?_, ?_⟩
  · intro e s'
    rw [parse_ordered_choice_cons]
    exact choiceAux_no_raise _ _ _ s e s'
  · intro sym rest r s1 hs hsym
    injection hs with h1 h2
    subst h1; subst h2
    rw [parse_ordered_choice_cons]
    simp only [choiceAux, hsym]
  · intro sym rest e s_err hs hsym
    injection hs with h1 h2
    subst h1; subst h2
    rw [parse_ordered_choice_cons]
    simp only [choiceAux, hsym]
  · intro hall
    obtain ⟨s_fin, hfin, hp, hc⟩ :=
      choiceAux_all_fail s.pos s.current_token (sym0 :: rest0) s hall rfl rfl
    exact ⟨s_fin, by rw [parse_ordered_choice_cons]; exact hfin, hp, hc⟩

/-- Counterexample to C3 as stated: on the EMPTY symbol list, `ordered_choice`
does raise. -/
theorem ordered_choice_empty_raises :
    parse_ordered_choice [] (mkParser []) =
      some (Except.error ⟨"Syntax error. Empty ordered choice."⟩, mkParser []) := rfl

/-- Witness for C3: a singleton always-failing symbol list yields the empty
result with the cursor unmoved. -/
theorem ordered_choice_spec_witness :
    ∃ s_fin, parse_ordered_choice [symFailK "boom"] (mkParser []) =
        some (Except.ok [], s_fin) ∧
      s_fin.pos = (mkParser []).pos ∧
      s_fin.current_token = (mkParser []).current_token :=
  (ordered_choice_spec [symFailK "boom"] (List.cons_ne_nil _ _) (mkParser [])).2.2.2
    (by
      intro sym hsym u
      rw [List.mem_singleton] at hsym
      subst hsym
      exact ⟨⟨"boom"⟩, u, rfl⟩)

/-- C4: for every nonempty symbol list and cursor state, `sequence` is
all-or-nothing: the outcome is fuel exhaustion, or the wrapping failure
"Syntax error. One symbol parsing failed within sequence." with the cursor
(position and current token) restored to the entry snapshot, or a success
carrying exactly one result per symbol — a partial result list is never
returned. -/
theorem sequence_all_or_nothing
    (symbols : List (PM PyObj)) (h : symbols ≠ []) (s : ParserState) :
    parse_sequence symbols s = none ∨
    (∃ s', parse_sequence symbols s =
        some (Except.error ⟨"Syntax error. One symbol parsing failed within sequence."⟩, s') ∧
        s'.pos = s.pos ∧ s'.current_token = s.current_token) ∨
    (∃ res s', parse_sequence symbols s = some (Except.ok res, s') ∧
        res.length = symbols.length) := by
  obtain ⟨sym0, rest0, rfl⟩ : ∃ a l, symbols = a :: l := by
    cases symbols with
    | nil => exact absurd rfl h
    | cons a l => exact ⟨a, l, rfl⟩
  rw [parse_sequence_cons]
  have htri := seqAux_cases s.pos s.current_token (sym0 :: rest0) [] s
  rcases htri with hnone | herr | hok
  · exact Or.inl hnone
  · exact Or.inr (Or.inl herr)
  · obtain ⟨res, s', hs', hlen⟩ := hok
    refine Or.inr (Or.inr ⟨res, s', hs', ?_⟩)
    simpa using hlen

/-- Witness for C4: a singleton always-succeeding symbol list. -/
theorem sequence_all_or_nothing_witness :
    parse_sequence [symOkConst (identNode "w")] (mkParser []) = none ∨
    (∃ s', parse_sequence [symOkConst (identNode "w")] (mkParser []) =
        some (Except.error ⟨"Syntax error. One symbol parsing failed within sequence."⟩, s') ∧
        s'.pos = (mkParser []).pos ∧ s'.current_token = (mkParser []).current_token) ∨
    (∃ res s', parse_sequence [symOkConst (identNode "w")] (mkParser []) =
        some (Except.ok res, s') ∧
        res.length = [symOkConst (identNode "w")].length) :=
  sequence_all_or_nothing [symOkConst (identNode "w")] (List.cons_ne_nil _ _) (mkParser [])

/-- C6: `zero_or_more` never raises; each iteration saves the cursor and
invokes the symbol: a failing invocation restores the cursor (position and
current token) to the last saved snapshot — the failing iteration's entry —
and returns the results accumulated so far, while a successful invocation
appends its result and, if the position did not advance, stops immediately
with what has been collected. -/
theorem zero_or_more_spec (symbol : PM PyObj) (s : ParserState) :
    (∀ fuel e s', parse_zero_or_more symbol fuel s ≠ some (Except.error e, s')) ∧
    (∀ fuel acc e s_err, symbol s = some (Except.error e, s_err) →
        zomAux symbol (fuel + 1) acc s =
          some (Except.ok acc, rollback s_err s.pos s.current_token)) ∧
    (∀ fuel acc r s', symbol s = some (Except.ok r, s') → s.pos = s'.pos →
        zomAux symbol (fuel + 1) acc s = some (Except.ok (acc ++ [r]), s')) ∧
    (∀ fuel acc r s', symbol s = some (Except.ok r, s') → s.pos ≠ s'.pos →
        zomAux symbol (fuel + 1) acc s = zomAux symbol fuel (acc ++ [r]) s') := by
  refine ⟨?_, ?_, ?_, ?_⟩
  · intro fuel e s'
    exact zomAux_no_raise symbol fuel [] s e s'
  · intro fuel acc e s_err hsym
    simp only [zomAux, hsym]
  · intro fuel acc r s' hsym hp
    simp only [zomAux, hsym, if_pos hp]
  · intro fuel acc r s' hsym hp
    simp only [zomAux, hsym, if_neg hp]

/-- Witness for C6: an always-failing symbol on the empty-stream state
returns the empty accumulator with the cursor restored. -/
theorem zero_or_more_spec_witness :
    zomAux (symFailK "w") (0 + 1) [] (mkParser []) =
      some (Except.ok [], rollback (mkParser []) (mkParser []).pos
        (mkParser []).current_token) :=
  (zero_or_more_spec (symFailK "w") (mkParser [])).2.1 0 [] ⟨"w"⟩ (mkParser []) rfl

/-- C5 (amended): `one_or_more` invokes the symbol once; a raising first
invocation restores the cursor (position and current token) to the entry
snapshot and propagates a (wrapping) failure; a first result that is the
empty marker yields the empty list; otherwise the first result — wrapped
into a singleton list when it is a dict, kept as is when it is already a
list — is extended with the results of `zero_or_more` of the same symbol by
list concatenation: a dict first result `d` yields `d :: rest`, while a list
first result `l` is spliced, yielding `l ++ rest`. -/
theorem one_or_more_spec (symbol : PM PyObj) (fuel : Nat) (s : ParserState) :
    (∀ e s_err, symbol s = some (Except.error e, s_err) →
        parse_one_or_more symbol fuel s =
          some (Except.error ⟨"Syntax error. 1st symbol parsing failed in 'one_or_more'."⟩,
                rollback s_err s.pos s.current_token)) ∧
    (∀ r s1, symbol s = some (Except.ok r, s1) → r.isFalsy = true →
        parse_one_or_more symbol fuel s = some (Except.ok (PyObj.list []), s1)) ∧
    (∀ fs s1 rest s2, symbol s = some (Except.ok (PyObj.dict fs), s1) →
        (PyObj.dict fs).isFalsy = false →
        parse_zero_or_more symbol fuel s1 = some (Except.ok rest, s2) →
        parse_one_or_more symbol fuel s =
          some (Except.ok (PyObj.list (PyObj.dict fs :: rest)), s2)) ∧
    (∀ l s1 rest s2, symbol s = some (Except.ok (PyObj.list l), s1) →
        (PyObj.list l).isFalsy = false →
        parse_zero_or_more symbol fuel s1 = some (Except.ok rest, s2) →
        parse_one_or_more symbol fuel s =
          some (Except.ok (PyObj.list (l ++ rest)), s2)) := by
  refine ⟨?_, ?_, ?_, ?_⟩
  · intro e s_err hsym
    simp only [parse_one_or_more, hsym]
  · intro r s1 hsym hf
    simp [parse_one_or_more, hsym, hf]
  · intro fs s1 rest s2 hsym hf hz
    simp only [parse_one_or_more, hsym, hf, Bool.false_eq_true, if_false, hz]
    cases rest with
    | nil => rfl
    | cons a l => rfl
  · intro l s1 rest s2 hsym hf hz
    simp only [parse_one_or_more, hsym, hf, Bool.false_eq_true, if_false, hz]
    cases rest with
    | nil => simp
    | cons a t => rfl

/-- Counterexample to C5 as stated: a symbol whose (truthy) first result is a
LIST is spliced by `one_or_more` — Python's `first_result + rest_results` —
rather than returned as a head element followed by `zero_or_more`'s results:
the outcome is `[a, [a]]`, not `[[a], [a]]`. -/
theorem one_or_more_splices_list_first_result :
    parse_one_or_more (symOkConst (PyObj.list [identNode "a"])) 5 (mkParser []) =
      some (Except.ok (PyObj.list [identNode "a", PyObj.list [identNode "a"]]),
            mkParser []) ∧
    PyObj.list [identNode "a", PyObj.list [identNode "a"]] ≠
      PyObj.list [PyObj.list [identNode "a"], PyObj.list [identNode "a"]] := by
  refine ⟨rfl, ?_⟩
  intro h
  injection h with h1
  injection h1 with h2 h3
  exact PyObj.noConfusion h2

/-- Witness for C5: a dict-returning, non-advancing symbol exercises the
dict-wrap clause — the first result becomes the head of the result list. -/
theorem one_or_more_spec_witness :
    parse_one_or_more (symOkConst (identNode "w")) 5 (mkParser []) =
      some (Except.ok (PyObj.list (identNode "w" :: [identNode "w"])), mkParser []) :=
  (one_or_more_spec (symOkConst (identNode "w")) 5 (mkParser [])).2.2.1
    [("type", PyObj.str "identifier"), ("name", PyObj.str "w")]
    (mkParser []) [identNode "w"] (mkParser []) rfl rfl rfl

/-- C2 (amended): on the token stream consisting only of the end-of-stream
token, `program()` raises a parse failure, but its message is the
`one_or_more` wrapping message, not "Empty program": `statement` raises inside
`one_or_more`'s mandatory first invocation, which re-raises with its own
message before `program`'s "Empty program" check can run. -/
theorem program_empty_stream_raises_wrapped :
    program 32 (mkParser [tk .EOF]) =
      some (Except.error ⟨"Syntax error. 1st symbol parsing failed in 'one_or_more'."⟩,
            mkParser [tk .EOF]) := rfl

/-- Counterexample to C2 as stated: on the end-of-stream-only token stream the
raised failure's message is not "Empty program". -/
theorem program_empty_stream_msg_not_empty_program :
    resErrMsg (program 32 (mkParser [tk .EOF])) ≠ some "Empty program" := by
  rw [show resErrMsg (program 32 (mkParser [tk .EOF])) =
      some "Syntax error. 1st symbol parsing failed in 'one_or_more'." from rfl]
  decide

/-- C8: absent optional children are the designated empty marker `{}`:
parsing `var x;` yields a `var_decl` node whose `init` field is the empty
dict, and parsing `if (x) print x;` (no else) yields an `if_stmt` node whose
`else-body` field is the empty dict. -/
theorem absent_optional_children_empty_marker :
    resOkVal (var_decl 32 (mkParser
        [tkv .VAR "var", tkv .IDENTIFIER "x", tkv .SEMICOLON ";", tk .EOF])) =
      some (PyObj.dict [("type", PyObj.str "var_decl"), ("name", PyObj.str "x"),
                        ("init", PyObj.dict [])]) ∧
    resOkVal (if_stmt 32 (mkParser
        [tkv .IF "if", tkv .LPAREN "(", tkv .IDENTIFIER "x", tkv .RPAREN ")",
         tkv .PRINT "print", tkv .IDENTIFIER "x", tkv .SEMICOLON ";", tk .EOF])) =
      some (PyObj.dict [("type", PyObj.str "if_stmt"), ("cond", identNode "x"),
            ("if-body", printNode (identNode "x")), ("else-body", PyObj.dict [])]) :=
  ⟨rfl, rfl⟩

/-- C10: `program()` checks no end of input after the last statement: on
tokens for `print x;` followed by a stray `)` (which begins no statement),
`program()` returns a program node while the cursor still points at the
unconsumed `)`, which is not the end-of-stream token. -/
theorem program_ignores_trailing_tokens :
    resOkVal (program 32 (mkParser
        [tkv .PRINT "print", tkv .IDENTIFIER "x", tkv .SEMICOLON ";",
         tkv .RPAREN ")", tk .EOF])) =
      some (PyObj.dict [("type", PyObj.str "program"),
            ("body", PyObj.list [printNode (identNode "x")])]) ∧
    resOkPos (program 32 (mkParser
        [tkv .PRINT "print", tkv .IDENTIFIER "x", tkv .SEMICOLON ";",
         tkv .RPAREN ")", tk .EOF])) = some 3 ∧
    resOkCurType (program 32 (mkParser
        [tkv .PRINT "print", tkv .IDENTIFIER "x", tkv .SEMICOLON ";",
         tkv .RPAREN ")", tk .EOF])) = some TokenType.RPAREN ∧
    TokenType.RPAREN ≠ TokenType.EOF := ⟨rfl, rfl, rfl, by decide⟩

/-- Counterexample to C1 as stated: on tokens for `print x` (missing `;`),
`print_stmt` raises from its mandatory-semicolon mismatch with the cursor at
position 2 and current token EOF, not restored to the entry snapshot
(position 0, current token `print`). -/
theorem print_stmt_mismatch_escapes_midway :
    resErrPos (print_stmt 32 (mkParser
        [tkv .PRINT "print", tkv .IDENTIFIER "x", tk .EOF])) = some 2 ∧
    (mkParser [tkv .PRINT "print", tkv .IDENTIFIER "x", tk .EOF]).pos = 0 ∧
    resErrCurType (print_stmt 32 (mkParser
        [tkv .PRINT "print", tkv .IDENTIFIER "x", tk .EOF])) = some TokenType.EOF ∧
    (mkParser [tkv .PRINT "print", tkv .IDENTIFIER "x", tk .EOF]).current_token.type
      = TokenType.PRINT ∧
    (2 : Nat) ≠ 0 :=
  ⟨rfl, rfl, rfl, rfl, by decide⟩

/-- C1 (amended): the statement rules restore the cursor to the rule-entry
snapshot before re-raising when the escaping failure arises in one of the
try/except-wrapped sub-parses (shown here for `print_stmt`'s expression step
and `var_decl`'s initializer-expression step, the rules the claim cites);
a mandatory-token mismatch instead raises with the cursor wherever the rule
had advanced it (the failing consume itself does not move the cursor). -/
theorem rules_restore_entry_on_wrapped_subparse_failure :
    (∀ (f : Nat) (s : ParserState) (tok : Token) (s1 : ParserState)
        (e : ParseErr) (s2 : ParserState),
        consume_token_or_fail .PRINT (some "print") none s = (Except.ok tok, s1) →
        expression f s1 = some (Except.error e, s2) →
        print_stmt (f + 1) s =
          some (Except.error ⟨"Expected expression after 'print'"⟩,
                rollback s2 s.pos s.current_token)) ∧
    (∀ (f : Nat) (s : ParserState) (t1 : Token) (s1 : ParserState)
        (id_tok : Token) (s2 : ParserState) (t3 : Token) (s3 : ParserState)
        (e : ParseErr) (s4 : ParserState),
        consume_token_or_fail .VAR (some "var") none s = (Except.ok t1, s1) →
        consume_token_or_fail .IDENTIFIER none
          (some "Expected variable name in declaration") s1 = (Except.ok id_tok, s2) →
        consume_token .ASSIGN (some "=") s2 = (some t3, s3) →
        expression f s3 = some (Except.error e, s4) →
        var_decl (f + 1) s =
          some (Except.error ⟨"Expected expression after '=' in declaration"⟩,
                rollback s4 s.pos s.current_token)) := by
  constructor
  · intro f s tok s1 e s2 h1 h2
    simp only [expression] at h2
    simp only [print_stmt, rules, grammarStep, tokStep, resStep, attempt, h1, h2]
  · intro f s t1 s1 id_tok s2 t3 s3 e s4 h1 h2 h3 h4
    simp only [expression] at h4
    simp only [var_decl, rules, grammarStep, tokStep, resStep, attempt, h1, h2, h3, h4]

/-- Witness for C1 (amended): on tokens for `print ;` the expression step
fails and `print_stmt` escapes with the cursor restored to entry. -/
theorem rules_restore_entry_witness :
    print_stmt (30 + 1) (mkParser [tkv .PRINT "print", tkv .SEMICOLON ";", tk .EOF]) =
      some (Except.error ⟨"Expected expression after 'print'"⟩,
            rollback
              { tokens := [tkv .PRINT "print", tkv .SEMICOLON ";", tk .EOF],
                pos := 1, current_token := tkv .SEMICOLON ";" }
              (mkParser [tkv .PRINT "print", tkv .SEMICOLON ";", tk .EOF]).pos
              (mkParser [tkv .PRINT "print", tkv .SEMICOLON ";", tk .EOF]).current_token) :=
  rules_restore_entry_on_wrapped_subparse_failure.1 30
    (mkParser [tkv .PRINT "print", tkv .SEMICOLON ";", tk .EOF])
    (tkv .PRINT "print")
    { tokens := [tkv .PRINT "print", tkv .SEMICOLON ";", tk .EOF],
      pos := 1, current_token := tkv .SEMICOLON ";" }
    ⟨"Failed to parse expression"⟩
    { tokens := [tkv .PRINT "print", tkv .SEMICOLON ";", tk .EOF],
      pos := 1, current_token := tkv .SEMICOLON ";" }
    rfl rfl

/-- C7: binary operator chains parse strictly left-associatively: tokens for
`a - b - c` yield `(a - b) - c`, and in general one iteration of a
same-precedence operator loop folds `left = binary(op, left, right)` before
continuing the loop. -/
theorem additive_chains_left_associative :
    (resOkVal (expression 32 (mkParser
        [tkv .IDENTIFIER "a", tkv .MINUS "-", tkv .IDENTIFIER "b",
         tkv .MINUS "-", tkv .IDENTIFIER "c", tk .EOF])) =
      some (mkBinary "-" (mkBinary "-" (identNode "a") (identNode "b"))
            (identNode "c"))) ∧
    (∀ (f sp : Nat) (stk : Token) (left : PyObj) (s : ParserState) (t : Token)
        (s1 : ParserState) (r : PyObj) (s2 : ParserState),
        consume_token .MINUS (some "-") s = (some t, s1) →
        multiplicative f s1 = some (Except.ok r, s2) →
        additive_loop (f + 1) sp stk left s =
          additive_loop f sp stk (mkBinary "-" left r) s2) := by
  constructor
  · rfl
  · intro f sp stk left s t s1 r s2 h1 h2
    have ht := consume_token_type_eq h1
    have hplus : consume_token .PLUS (some "+") s = (none, s) := by
      simp [consume_token, tokenMatches, ht]
    simp only [multiplicative] at h2
    simp only [additive_loop, rules, grammarStep, hplus, h1, resStep, attempt, h2]

/-- Witness for C7: one fold step of the additive loop on tokens `- b`. -/
theorem additive_fold_step_witness :
    additive_loop (30 + 1) 0 (tkv .MINUS "-") (identNode "a")
        (mkParser [tkv .MINUS "-", tkv .IDENTIFIER "b", tk .EOF]) =
      additive_loop 30 0 (tkv .MINUS "-")
        (mkBinary "-" (identNode "a") (identNode "b"))
        { tokens := [tkv .MINUS "-", tkv .IDENTIFIER "b", tk .EOF],
          pos := 2, current_token := tk .EOF } :=
  additive_chains_left_associative.2 30 0 (tkv .MINUS "-") (identNode "a")
    (mkParser [tkv .MINUS "-", tkv .IDENTIFIER "b", tk .EOF])
    (tkv .MINUS "-")
    { tokens := [tkv .MINUS "-", tkv .IDENTIFIER "b", tk .EOF],
      pos := 1, current_token := tkv .IDENTIFIER "b" }
    (identNode "b")
    { tokens := [tkv .MINUS "-", tkv .IDENTIFIER "b", tk .EOF],
      pos := 2, current_token := tk .EOF }
    rfl rfl

end ToyPEG
